import Mathlib

/-!
Verification development for the LAN chat server core
(`websocket.js` — session registry, broadcast router, command interpreter
with role-based access control — backed by the MySQL schema in `database.sql`).

The JavaScript source is shallowly embedded: the mutable `clients` Map,
`bannedUsers` Set, and the SQL tables (`users`, `channels`, `messages`,
`reactions`) become explicit state values; each WebSocket event handler
becomes a pure step function from state (plus the event payload) to new
state together with an ordered list of observable effects (messages sent
to clients, broadcasts, DB writes, connection closes).  Timestamps are
`Int` milliseconds as produced by `Date.now()`.
-/

namespace LanChat

/-- Role hierarchy for granular permission checks
(`ROLE_HIERARCHY = { Admin: 3, Moderator: 2, User: 1, Guest: 0 }`). -/
inductive Role where
  | Admin
  | Moderator
  | User
  | Guest
deriving DecidableEq, Repr, Fintype

/-- Numeric rank of each role, as in the `ROLE_HIERARCHY` object literal. -/
def ROLE_HIERARCHY : Role → Nat
  | Role.Admin => 3
  | Role.Moderator => 2
  | Role.User => 1
  | Role.Guest => 0

/-- `hasPermission(userRole, requiredRole)`: true when the user role rank
meets or exceeds the required rank. -/
def hasPermission (userRole requiredRole : Role) : Bool :=
  ROLE_HIERARCHY userRole ≥ ROLE_HIERARCHY requiredRole

/-- Claim C8: the permission check is monotone in the role order
Admin > Moderator > User > Guest: whenever a role `R` is denied an action
requiring minimum role `M`, every role of strictly lower rank is denied as
well, and every role whose rank meets or exceeds the rank of `M` is
permitted. -/
theorem C8_permission_monotone (M R Rlow Rhigh : Role)
    (hden : hasPermission R M = false)
    (hlow : ROLE_HIERARCHY Rlow < ROLE_HIERARCHY R)
    (hhigh : ROLE_HIERARCHY M ≤ ROLE_HIERARCHY Rhigh) :
    hasPermission Rlow M = false ∧ hasPermission Rhigh M = true := by
  cases M <;> cases R <;> cases Rlow <;> cases Rhigh <;>
    simp_all [hasPermission, ROLE_HIERARCHY]

/-- Witness for C8 at a concrete instance: `User` is denied a
Moderator-gated action, `Guest` ranks below `User`, `Admin` ranks at or
above `Moderator`, and the theorem yields that `Guest` is denied while
`Admin` is permitted. -/
theorem C8_witness :
    hasPermission Role.User Role.Moderator = false ∧
    ROLE_HIERARCHY Role.Guest < ROLE_HIERARCHY Role.User ∧
    ROLE_HIERARCHY Role.Moderator ≤ ROLE_HIERARCHY Role.Admin ∧
    (hasPermission Role.Guest Role.Moderator = false ∧
      hasPermission Role.Admin Role.Moderator = true) :=
  ⟨by decide, by decide, by decide,
    C8_permission_monotone Role.Moderator Role.User Role.Guest Role.Admin
      (by decide) (by decide) (by decide)⟩

/-- In-memory per-connection session data, the value type of the `clients`
Map: `{ ws, username, channel, role, status }`.  The WebSocket handle is
abstracted to a numeric connection id `wsId`. -/
structure ClientData where
  wsId : Nat
  username : String
  channel : String
  role : Role
  status : String
deriving DecidableEq, Repr

/-- The `clients` Map keyed by user id, embedded as an association list in
insertion order (JavaScript Maps iterate in insertion order). -/
abbrev Registry : Type := List (String × ClientData)

/-- `clients.delete(k)`: drop the entry for key `k`. -/
def Registry.del (r : Registry) (k : String) : Registry :=
  List.filter (fun p => !(p.1 == k)) r

/-- `clients.set(k, v)` on a map not containing `k` (the code always
deletes the key first on the replace path): append the binding. -/
def Registry.setk (r : Registry) (k : String) (v : ClientData) : Registry :=
  Registry.del r k ++ [(k, v)]

/-- `clients.get(k)` / `clients.has(k)`. -/
def Registry.getk (r : Registry) (k : String) : Option ClientData :=
  Option.map Prod.snd (List.find? (fun p => p.1 == k) r)

/-- The keys currently present in the registry. -/
def Registry.keys (r : Registry) : List String :=
  List.map Prod.fst r

theorem Registry.keys_del_nodup (r : Registry) (k : String)
    (h : (Registry.keys r).Nodup) : (Registry.keys (Registry.del r k)).Nodup := by
  refine List.Nodup.sublist (List.Sublist.map Prod.fst ?_) h
  exact List.filter_sublist r

theorem Registry.not_mem_keys_del (r : Registry) (k : String) :
    k ∉ Registry.keys (Registry.del r k) := by
  intro hmem
  rcases List.mem_map.mp hmem with ⟨p, hp, hfst⟩
  have := List.of_mem_filter hp
  simp [hfst] at this

theorem Registry.keys_setk_nodup (r : Registry) (k : String) (v : ClientData)
    (h : (Registry.keys r).Nodup) : (Registry.keys (Registry.setk r k v)).Nodup := by
  have hdel := Registry.keys_del_nodup r k h
  have hnot := Registry.not_mem_keys_del r k
  have : Registry.keys (Registry.setk r k v) = Registry.keys (Registry.del r k) ++ [k] := by
    simp [Registry.keys, Registry.setk]
  rw [this]
  simp [List.nodup_append, hdel, hnot]

theorem Registry.getk_setk_self (r : Registry) (k : String) (v : ClientData) :
    Registry.getk (Registry.setk r k v) k = some v := by
  unfold Registry.setk Registry.getk Registry.del
  induction r with
  | nil => simp
  | cons p r ih =>
      by_cases hp : p.1 = k
      · simp [hp]
      · simp [List.find?, hp]

/-- JavaScript `String.prototype.trim()`: strip leading and trailing
whitespace.  Embedded structurally over the character list so that it
evaluates by kernel reduction. -/
def jsTrim (s : String) : String :=
  ⟨((s.data.dropWhile Char.isWhitespace).reverse.dropWhile Char.isWhitespace).reverse⟩

/-- JavaScript `String.prototype.startsWith(p)`, embedded structurally
over the character list. -/
def jsStartsWith (s p : String) : Bool :=
  List.isPrefixOf p.data s.data

/-- A row of the `users` table (the fields the WebSocket layer reads). -/
structure UserRec where
  user_id : String
  username : String
  user_role : Role
  current_status : String
  last_seen_channel : String
  is_banned : Bool
  ban_reason : Option String
deriving DecidableEq, Repr

/-- A row of the `messages` table (the fields the handlers read). -/
structure MsgRecord where
  id : String
  channel_name : String
  author_id : String
  content : String
  timestamp : Int
deriving DecidableEq, Repr

/-- The `messageData` object built by the `send_message` handler. -/
structure OutMessage where
  id : String
  author : String
  authorId : String
  content : String
  timestamp : Int
  channel : String
  system : Bool
  edited : Bool
  editedTimestamp : Option Int
  attachment : Option String
  parent_message_id : Option String
  is_thread_root : Bool
deriving DecidableEq, Repr

/-- Observable effects of one handler step, in program order: events sent
to a single client, broadcasts to a room, DB writes, and connection
lifecycle actions on the `clients` Map. -/
inductive Effect where
  | errorMsg (wsId : Nat) (msg : String)
  | notice (wsId : Nat) (msg : String)
  | sendKicked (wsId : Nat)
  | sendEvent (wsId : Nat) (event : String) (reason : String)
  | closeConn (wsId : Nat)
  | removeSession (userId : String)
  | installSession (userId : String)
  | broadcastSystem (room : String) (content : String)
  | presenceUpdate (room : String)
  | auditInsert (actionType : String) (actorId : String) (targetId : String) (room : String)
  | dbBanUpdate (username : String) (reason : String)
  | dbUpdateLastSeen (userId : String) (channel : String)
  | initialState (wsId : Nat) (channel : String)
  | messageHistory (wsId : Nat) (channel : String)
  | joinNotice (room : String) (username : String)
  | loginSuccess (wsId : Nat) (username : String) (role : Role)
  | commandDispatch (cmd : String) (args : List String)
  | dbInsertMessage (msg : OutMessage)
  | echoMessage (wsId : Nat) (msg : OutMessage)
  | broadcastMessage (room : String) (msg : OutMessage)
  | broadcastDeleted (room : String) (msgId : String)
  | echoDeleted (wsId : Nat) (room : String) (msgId : String)
  | reactBroadcast (room : String) (msgId : String) (reactions : List (String × List String))
  | reactEcho (wsId : Nat) (msgId : String) (reactions : List (String × List String))
deriving DecidableEq, Repr

/-- `FALLBACK_CHANNEL = '#general'`. -/
def FALLBACK_CHANNEL : String := "#general"

/-- The synchronous duplicate-login block of the login handler: if a
session already exists for `userId`, the old connection is sent `kicked`,
closed, and deleted from the Map, and only then is the new session
installed — all in one step with no `await` in between (the source has no
suspension point between `clients.has(userId)` and `clients.set`). -/
def loginRegistryStep (clients : Registry) (userId : String) (d : ClientData) :
    Registry × List Effect :=
  match Registry.getk clients userId with
  | some old =>
      (Registry.setk (Registry.del clients userId) userId d,
        [Effect.sendKicked old.wsId, Effect.closeConn old.wsId,
         Effect.removeSession userId, Effect.installSession userId])
  | none =>
      (Registry.setk clients userId d, [Effect.installSession userId])

/-- The `clientData` object built by the login handler: display name from
the login event (already truncated), everything else from the persisted
user record. -/
def mkClientData (ws : Nat) (inputUsername : String) (pu : UserRec) : ClientData :=
  { wsId := ws, username := inputUsername, channel := pu.last_seen_channel,
    role := pu.user_role, status := pu.current_status }

/-- The events the login handler sends after the session is installed and
its channel settled: initial state, room history, a join notice to the
room (suppressed for DM rooms), a presence update, and `login_success`. -/
def loginEmitEffects (ws : Nat) (inputUsername : String) (role : Role)
    (channel : String) : List Effect :=
  [Effect.initialState ws channel, Effect.messageHistory ws channel] ++
  (if jsStartsWith channel "DM:" then [] else [Effect.joinNotice channel inputUsername]) ++
  [Effect.presenceUpdate channel, Effect.loginSuccess ws inputUsername role]

/-- The tail of the login handler once the identity resolved and passed
the ban check: preempt/install the session (`loginRegistryStep`), and
when the last-seen channel is not in the authorized list, switch the
installed session to `#general` (the code mutates the already-installed
`clientData` object in place, modelled by re-binding the key) and persist
the new last-seen channel; then emit the login events. -/
def loginInstall (clients : Registry) (authorizedNames : List String)
    (userId : String) (inputUsername : String) (ws : Nat) (pu : UserRec) :
    Registry × List Effect :=
  if authorizedNames.contains pu.last_seen_channel then
    ((loginRegistryStep clients userId (mkClientData ws inputUsername pu)).1,
      (loginRegistryStep clients userId (mkClientData ws inputUsername pu)).2 ++
        loginEmitEffects ws inputUsername pu.user_role pu.last_seen_channel)
  else
    (Registry.setk (loginRegistryStep clients userId (mkClientData ws inputUsername pu)).1
        userId { mkClientData ws inputUsername pu with channel := FALLBACK_CHANNEL },
      (loginRegistryStep clients userId (mkClientData ws inputUsername pu)).2 ++
        Effect.dbUpdateLastSeen userId FALLBACK_CHANNEL ::
        loginEmitEffects ws inputUsername pu.user_role FALLBACK_CHANNEL)

/-- The login handler (`data.type === 'login'`): look up the persisted
user by id, reject unknown or banned identities (checking both the
in-memory ban set and the persisted flag), then hand over to
`loginInstall` (`authorizedNames` stands for the channel names returned by
`getAuthorizedChannels`). -/
def loginStep (clients : Registry) (bannedUsers : List String) (users : List UserRec)
    (authorizedNames : List String) (userId : String) (rawUsername : String) (ws : Nat) :
    Registry × List Effect :=
  match List.find? (fun u => u.user_id == userId) users with
  | none =>
      (clients, [Effect.errorMsg ws "Invalid User ID. Please register.", Effect.closeConn ws])
  | some pu =>
      if bannedUsers.contains pu.username || pu.is_banned then
        (clients,
          [Effect.sendEvent ws "banned" (pu.ban_reason.getD "You are banned from this server."),
           Effect.closeConn ws])
      else
        loginInstall clients authorizedNames userId (rawUsername.take 20) ws pu

theorem loginStep_of_found (clients : Registry) (bannedUsers : List String)
    (users : List UserRec) (authorizedNames : List String)
    (userId rawUsername : String) (ws : Nat) (pu : UserRec)
    (hfind : List.find? (fun u => u.user_id == userId) users = some pu)
    (hban : (bannedUsers.contains pu.username || pu.is_banned) = false) :
    loginStep clients bannedUsers users authorizedNames userId rawUsername ws =
      loginInstall clients authorizedNames userId (rawUsername.take 20) ws pu := by
  unfold loginStep
  rw [hfind]
  simp only [hban, Bool.false_eq_true, if_false]

theorem loginRegistryStep_some (clients : Registry) (userId : String) (d : ClientData)
    (old : ClientData) (hold : Registry.getk clients userId = some old) :
    loginRegistryStep clients userId d =
      (Registry.setk (Registry.del clients userId) userId d,
        [Effect.sendKicked old.wsId, Effect.closeConn old.wsId,
         Effect.removeSession userId, Effect.installSession userId]) := by
  unfold loginRegistryStep
  rw [hold]

/-- Claim C1: at most one active session per identity.  When a login
event arrives for an identity that already has a registered session, the
old session is sent `kicked`, its connection is closed, and it is deleted
from the registry before the new session is installed (the first four
effects, in this order); the registry keys remain duplicate-free, so every
identity has at most one session; and the new session is installed.  The
absence of a suspension point is captured by the whole conflict
resolution being a single pure step (`loginRegistryStep`). -/
theorem C1_login_preempts_existing_session
    (clients : Registry) (bannedUsers : List String) (users : List UserRec)
    (authorizedNames : List String) (userId rawUsername : String) (ws : Nat)
    (pu : UserRec) (old : ClientData)
    (hnd : (Registry.keys clients).Nodup)
    (hfind : List.find? (fun u => u.user_id == userId) users = some pu)
    (hban : (bannedUsers.contains pu.username || pu.is_banned) = false)
    (hold : Registry.getk clients userId = some old) :
    (Registry.keys (loginStep clients bannedUsers users authorizedNames userId rawUsername ws).1).Nodup ∧
    (∀ k, (Registry.keys (loginStep clients bannedUsers users authorizedNames userId rawUsername ws).1).count k ≤ 1) ∧
    (∃ d, Registry.getk (loginStep clients bannedUsers users authorizedNames userId rawUsername ws).1 userId = some d) ∧
    (loginStep clients bannedUsers users authorizedNames userId rawUsername ws).2.take 4 =
      [Effect.sendKicked old.wsId, Effect.closeConn old.wsId,
       Effect.removeSession userId, Effect.installSession userId] := by
  rw [loginStep_of_found clients bannedUsers users authorizedNames userId rawUsername ws pu
    hfind hban]
  unfold loginInstall
  rw [loginRegistryStep_some clients userId _ old hold]
  by_cases hacc : authorizedNames.contains pu.last_seen_channel = true
  · rw [if_pos hacc]
    have hnd2 := Registry.keys_setk_nodup (Registry.del clients userId) userId
      (mkClientData ws (rawUsername.take 20) pu) (Registry.keys_del_nodup clients userId hnd)
    exact ⟨hnd2, fun k => List.nodup_iff_count_le_one.mp hnd2 k,
      ⟨_, Registry.getk_setk_self _ _ _⟩, List.take_left' rfl⟩
  · rw [if_neg hacc]
    have hnd2 := Registry.keys_setk_nodup
      (Registry.setk (Registry.del clients userId) userId
        (mkClientData ws (rawUsername.take 20) pu)) userId
      { mkClientData ws (rawUsername.take 20) pu with channel := FALLBACK_CHANNEL }
      (Registry.keys_setk_nodup (Registry.del clients userId) userId
        (mkClientData ws (rawUsername.take 20) pu) (Registry.keys_del_nodup clients userId hnd))
    exact ⟨hnd2, fun k => List.nodup_iff_count_le_one.mp hnd2 k,
      ⟨_, Registry.getk_setk_self _ _ _⟩, List.take_left' rfl⟩

/-- Witness for C1: a concrete registry holding an old session for `u1`
(on connection 3) receives a fresh login for `u1` on connection 7; the
hypotheses hold by evaluation and the theorem applies. -/
theorem C1_witness :
    (Registry.keys [("u1", ⟨3, "oldname", "#general", Role.User, "online"⟩)]).Nodup ∧
    List.find? (fun u => u.user_id == "u1")
      [UserRec.mk "u1" "bob" Role.User "online" "#general" false none] =
      some (UserRec.mk "u1" "bob" Role.User "online" "#general" false none) ∧
    (List.contains [] "bob" || false) = false ∧
    Registry.getk [("u1", ⟨3, "oldname", "#general", Role.User, "online"⟩)] "u1" =
      some ⟨3, "oldname", "#general", Role.User, "online"⟩ ∧
    ((Registry.keys (loginStep [("u1", ⟨3, "oldname", "#general", Role.User, "online"⟩)] []
        [UserRec.mk "u1" "bob" Role.User "online" "#general" false none]
        ["#general"] "u1" "bob" 7).1).Nodup ∧
      (∀ k, (Registry.keys (loginStep [("u1", ⟨3, "oldname", "#general", Role.User, "online"⟩)] []
        [UserRec.mk "u1" "bob" Role.User "online" "#general" false none]
        ["#general"] "u1" "bob" 7).1).count k ≤ 1) ∧
      (∃ d, Registry.getk (loginStep [("u1", ⟨3, "oldname", "#general", Role.User, "online"⟩)] []
        [UserRec.mk "u1" "bob" Role.User "online" "#general" false none]
        ["#general"] "u1" "bob" 7).1 "u1" = some d) ∧
      (loginStep [("u1", ⟨3, "oldname", "#general", Role.User, "online"⟩)] []
        [UserRec.mk "u1" "bob" Role.User "online" "#general" false none]
        ["#general"] "u1" "bob" 7).2.take 4 =
        [Effect.sendKicked 3, Effect.closeConn 3,
         Effect.removeSession "u1", Effect.installSession "u1"]) :=
  ⟨by decide, by decide, by decide, by decide,
    C1_login_preempts_existing_session
      [("u1", ⟨3, "oldname", "#general", Role.User, "online"⟩)] []
      [UserRec.mk "u1" "bob" Role.User "online" "#general" false none]
      ["#general"] "u1" "bob" 7
      (UserRec.mk "u1" "bob" Role.User "online" "#general" false none)
      ⟨3, "oldname", "#general", Role.User, "online"⟩
      (by decide) (by decide) (by decide) (by decide)⟩

theorem loginRegistryStep_none (clients : Registry) (userId : String) (d : ClientData)
    (hnone : Registry.getk clients userId = none) :
    loginRegistryStep clients userId d =
      (Registry.setk clients userId d, [Effect.installSession userId]) := by
  unfold loginRegistryStep
  rw [hnone]

/-- Counterexample to claim C10 as stated: a user whose persisted
last-seen channel `#secret` is no longer in the authorized channel list is
installed with channel `#general`, not the room stored in the persisted
record — while the display name is still the client-chosen login string,
not the persisted username `bob`. -/
theorem C10_counterexample :
    Registry.getk (loginStep [] []
        [UserRec.mk "u1" "bob" Role.User "online" "#secret" false none]
        ["#general"] "u1" "ChosenName" 7).1 "u1" =
      some ⟨7, "ChosenName", "#general", Role.User, "online"⟩ ∧
    ("#general" : String) ≠ "#secret" ∧
    ("ChosenName" : String) ≠ "bob" := by
  refine ⟨?_, by decide, by decide⟩
  decide

/-- Claim C10 (amended): on a successful login the installed session's
display name is the login event's username truncated to 20 characters
(regardless of the persisted username), its role and status come from the
persisted record, and its channel is the record's last-seen channel when
that channel is still in the authorized list, and `#general` otherwise. -/
theorem C10_login_session_fields
    (clients : Registry) (bannedUsers : List String) (users : List UserRec)
    (authorizedNames : List String) (userId rawUsername : String) (ws : Nat) (pu : UserRec)
    (hfind : List.find? (fun u => u.user_id == userId) users = some pu)
    (hban : (bannedUsers.contains pu.username || pu.is_banned) = false) :
    Registry.getk
        (loginStep clients bannedUsers users authorizedNames userId rawUsername ws).1 userId =
      some { wsId := ws, username := rawUsername.take 20,
             channel := if authorizedNames.contains pu.last_seen_channel then
                 pu.last_seen_channel else FALLBACK_CHANNEL,
             role := pu.user_role, status := pu.current_status } := by
  rw [loginStep_of_found clients bannedUsers users authorizedNames userId rawUsername ws pu
    hfind hban]
  generalize rawUsername.take 20 = inputU
  unfold loginInstall
  by_cases hacc : authorizedNames.contains pu.last_seen_channel = true
  · rw [if_pos hacc]
    simp only [hacc, ite_true]
    cases hold : Registry.getk clients userId with
    | some old =>
        rw [loginRegistryStep_some clients userId _ old hold]
        exact Registry.getk_setk_self _ _ _
    | none =>
        rw [loginRegistryStep_none clients userId _ hold]
        exact Registry.getk_setk_self _ _ _
  · rw [if_neg hacc]
    rw [if_neg hacc]
    exact Registry.getk_setk_self _ _ _

/-- Witness for C10 (amended) at a concrete input whose last-seen channel
is still authorized. -/
theorem C10_witness :
    List.find? (fun u => u.user_id == "u2")
      [UserRec.mk "u2" "carol" Role.Moderator "away" "#dev-talk" false none] =
      some (UserRec.mk "u2" "carol" Role.Moderator "away" "#dev-talk" false none) ∧
    (List.contains ([] : List String) "carol" || false) = false ∧
    Registry.getk (loginStep [] []
        [UserRec.mk "u2" "carol" Role.Moderator "away" "#dev-talk" false none]
        ["#dev-talk"] "u2" "SomeVeryLongChosenDisplayName" 9).1 "u2" =
      some { wsId := 9, username := ("SomeVeryLongChosenDisplayName").take 20,
             channel := if (["#dev-talk"] : List String).contains "#dev-talk" then
                 "#dev-talk" else FALLBACK_CHANNEL,
             role := Role.Moderator, status := "away" } :=
  ⟨by decide, by decide,
    C10_login_session_fields [] []
      [UserRec.mk "u2" "carol" Role.Moderator "away" "#dev-talk" false none]
      ["#dev-talk"] "u2" "SomeVeryLongChosenDisplayName" 9
      (UserRec.mk "u2" "carol" Role.Moderator "away" "#dev-talk" false none)
      (by decide) (by decide)⟩

/-- `MESSAGE_EDIT_TTL_MS` default (no env override): 24 hours in ms. -/
def MESSAGE_EDIT_TTL_MS : Int := 24 * 60 * 60 * 1000

/-- `SELECT * FROM messages WHERE id = ? AND channel_name = ?`, row 0:
the message must exist in the acting session's current room. -/
def findMessageInRoom (msgs : List MsgRecord) (msgId room : String) : Option MsgRecord :=
  (List.filter (fun m => m.id == msgId && m.channel_name == room) msgs).head?

/-- Outcome of the `edit_message` handler: either the edit goes through
with the new (trimmed) content, or the sender gets an `error` event. -/
inductive EditOutcome where
  | success (newContent : String)
  | rejected (msg : String)
deriving DecidableEq, Repr

/-- The `edit_message` handler decision (lines: `canEdit` =
message found and (author or Moderator+); then the TTL gate, which the
code applies whenever the actor is the original author; then the update
and broadcast). -/
def editMessageDecision (msgs : List MsgRecord) (client : ClientData) (userId : String)
    (msgId : String) (rawContent : Option String) (now : Int) (ttl : Int) : EditOutcome :=
  match findMessageInRoom msgs msgId client.channel with
  | none => EditOutcome.rejected "Permission denied or content empty."
  | some m =>
      if (m.author_id = userId ∨ hasPermission client.role Role.Moderator = true) ∧
          0 < (jsTrim (rawContent.getD "")).length then
        if m.author_id = userId ∧ now > m.timestamp + ttl then
          EditOutcome.rejected "Message is too old to edit (TTL exceeded)."
        else EditOutcome.success (jsTrim (rawContent.getD ""))
      else EditOutcome.rejected "Permission denied or content empty."

/-- Counterexample to claim C2 as stated: a Moderator who is also the
author of a message older than the TTL window is rejected by the code
(the TTL gate fires for the original author regardless of role), while
the claim predicts success for any actor at or above Moderator. -/
theorem C2_counterexample :
    hasPermission Role.Moderator Role.Moderator = true ∧
    editMessageDecision
        [MsgRecord.mk "m1" "#general" "u1" "old text" 0]
        (ClientData.mk 1 "modname" "#general" Role.Moderator "online")
        "u1" "m1" (some "new text") 90000000 86400000 =
      EditOutcome.rejected "Message is too old to edit (TTL exceeded)." :=
  ⟨by decide, by decide⟩

theorem editMessageDecision_none (msgs : List MsgRecord) (client : ClientData)
    (userId msgId : String) (rawContent : Option String) (now ttl : Int)
    (hfind : findMessageInRoom msgs msgId client.channel = none) :
    editMessageDecision msgs client userId msgId rawContent now ttl =
      EditOutcome.rejected "Permission denied or content empty." := by
  unfold editMessageDecision
  rw [hfind]

theorem editMessageDecision_some (msgs : List MsgRecord) (client : ClientData)
    (userId msgId : String) (rawContent : Option String) (now ttl : Int) (m : MsgRecord)
    (hfind : findMessageInRoom msgs msgId client.channel = some m) :
    editMessageDecision msgs client userId msgId rawContent now ttl =
      (if (m.author_id = userId ∨ hasPermission client.role Role.Moderator = true) ∧
          0 < (jsTrim (rawContent.getD "")).length then
        if m.author_id = userId ∧ now > m.timestamp + ttl then
          EditOutcome.rejected "Message is too old to edit (TTL exceeded)."
        else EditOutcome.success (jsTrim (rawContent.getD ""))
      else EditOutcome.rejected "Permission denied or content empty.") := by
  unfold editMessageDecision
  rw [hfind]

/-- Claim C2 (amended): an `edit_message` succeeds if and only if the
message exists in the actor's current room, the trimmed new content is
non-empty, and either the actor is the author and the edit falls within
the TTL window (this branch applies to authors of any role, including
Moderators and Admins), or the actor is not the author and the actor's
role meets the Moderator threshold (in which case age is irrelevant).
All other cases are rejected with a user-visible error. -/
theorem C2_edit_success_iff (msgs : List MsgRecord) (client : ClientData)
    (userId msgId : String) (rawContent : Option String) (now ttl : Int) :
    (∃ c, editMessageDecision msgs client userId msgId rawContent now ttl =
        EditOutcome.success c) ↔
    (∃ m, findMessageInRoom msgs msgId client.channel = some m ∧
        0 < (jsTrim (rawContent.getD "")).length ∧
        ((m.author_id = userId ∧ now ≤ m.timestamp + ttl) ∨
         (m.author_id ≠ userId ∧ hasPermission client.role Role.Moderator = true))) := by
  cases hfind : findMessageInRoom msgs msgId client.channel with
  | none =>
      rw [editMessageDecision_none msgs client userId msgId rawContent now ttl hfind]
      constructor
      · rintro ⟨c, hc⟩
        cases hc
      · rintro ⟨m, hm, _⟩
        cases hm
  | some m =>
      rw [editMessageDecision_some msgs client userId msgId rawContent now ttl m hfind]
      by_cases h1 : (m.author_id = userId ∨ hasPermission client.role Role.Moderator = true) ∧
          0 < (jsTrim (rawContent.getD "")).length
      · rw [if_pos h1]
        by_cases h2 : m.author_id = userId ∧ now > m.timestamp + ttl
        · rw [if_pos h2]
          constructor
          · rintro ⟨c, hc⟩
            cases hc
          · rintro ⟨m2, hm2, _, hcase⟩
            injection hm2 with hm2e
            subst hm2e
            rcases hcase with ⟨_, hle⟩ | ⟨hne, _⟩
            · omega
            · exact absurd h2.1 hne
        · rw [if_neg h2]
          constructor
          · intro _
            refine ⟨m, rfl, h1.2, ?_⟩
            by_cases hauth : m.author_id = userId
            · left
              refine ⟨hauth, ?_⟩
              by_contra hgt
              exact h2 ⟨hauth, by omega⟩
            · right
              rcases h1.1 with h | h
              · exact absurd h hauth
              · exact ⟨hauth, h⟩
          · intro _
            exact ⟨_, rfl⟩
      · rw [if_neg h1]
        constructor
        · rintro ⟨c, hc⟩
          cases hc
        · rintro ⟨m2, hm2, hlen, hcase⟩
          injection hm2 with hm2e
          subst hm2e
          refine absurd ⟨?_, hlen⟩ h1
          rcases hcase with ⟨ha, _⟩ | ⟨_, hp⟩
          · exact Or.inl ha
          · exact Or.inr hp

/-- JS `data.parent_message_id || null`: an absent or empty (falsy)
parent id normalizes to null. -/
def normalizeParent (raw : Option String) : Option String :=
  match raw with
  | none => none
  | some s => if s = "" then none else some s

/-- The `send_message` / `send_dm` handler: trim the content, route slash
commands to the command interpreter, drop empty payloads, and otherwise
build `messageData` (computing the thread-root flag from the parent
reference), persist it for non-DM rooms, echo it to the sender and
broadcast it to the room.  Returns the effect list and the built message
(if any). -/
def sendMessageStep (client : ClientData) (userId : String) (ws : Nat)
    (newId : String) (now : Int) (eventIsDm : Bool) (dmChannel : String)
    (rawContent : Option String) (attachment : Option String)
    (parentRaw : Option String) : List Effect × Option OutMessage :=
  let content := jsTrim (rawContent.getD "")
  let targetRoom := if eventIsDm then dmChannel else client.channel
  let isDM := jsStartsWith targetRoom "DM:"
  if jsStartsWith content "/" then
    let parts := (content.drop 1).splitOn " "
    ([Effect.commandDispatch (parts.headD "").toLower (parts.drop 1)], none)
  else if 0 < content.length ∨ attachment.isSome then
    let parentId := normalizeParent parentRaw
    let isThreadRoot := match parentId with
      | some _ => false
      | none => true
    let messageData : OutMessage :=
      { id := newId, author := client.username, authorId := userId, content := content,
        timestamp := now, channel := targetRoom, system := false, edited := false,
        editedTimestamp := none, attachment := attachment,
        parent_message_id := parentId, is_thread_root := isThreadRoot }
    ((if isDM then [] else [Effect.dbInsertMessage messageData]) ++
      [Effect.echoMessage ws messageData, Effect.broadcastMessage targetRoom messageData],
      some messageData)
  else ([], none)

/-- Claim C5: every message accepted by the send path has its thread-root
flag true exactly when it carries no parent reference, and its stored
parent reference is the normalized (`|| null`) parent id from the event. -/
theorem C5_thread_root_iff_no_parent (client : ClientData) (userId : String) (ws : Nat)
    (newId : String) (now : Int) (eventIsDm : Bool) (dmChannel : String)
    (rawContent attachment parentRaw : Option String) (msg : OutMessage)
    (hacc : (sendMessageStep client userId ws newId now eventIsDm dmChannel
        rawContent attachment parentRaw).2 = some msg) :
    (msg.is_thread_root = true ↔ msg.parent_message_id = none) ∧
    msg.parent_message_id = normalizeParent parentRaw := by
  simp only [sendMessageStep] at hacc
  split_ifs at hacc
  all_goals cases hacc
  all_goals
    cases hparent : normalizeParent parentRaw with
    | none => simp [hparent]
    | some p => simp [hparent]

/-- Witness for C5: a concrete reply carrying parent `m1` is built with
`parent_message_id = some "m1"` and `is_thread_root = false`, satisfying
the biconditional. -/
theorem C5_witness :
    ((sendMessageStep (ClientData.mk 1 "alice" "#general" Role.User "online") "u1" 1 "m9" 1000
        false "" (some "hello") none (some "m1")).2 =
      some (OutMessage.mk "m9" "alice" "u1" "hello" 1000 "#general" false false none none
        (some "m1") false)) ∧
    (((OutMessage.mk "m9" "alice" "u1" "hello" 1000 "#general" false false none none
        (some "m1") false).is_thread_root = true ↔
      (OutMessage.mk "m9" "alice" "u1" "hello" 1000 "#general" false false none none
        (some "m1") false).parent_message_id = none) ∧
      (OutMessage.mk "m9" "alice" "u1" "hello" 1000 "#general" false false none none
        (some "m1") false).parent_message_id = normalizeParent (some "m1")) :=
  ⟨by decide,
    C5_thread_root_iff_no_parent (ClientData.mk 1 "alice" "#general" Role.User "online")
      "u1" 1 "m9" 1000 false "" (some "hello") none (some "m1")
      (OutMessage.mk "m9" "alice" "u1" "hello" 1000 "#general" false false none none
        (some "m1") false)
      (by decide)⟩

/-- Counterexample to claim C9 as stated: an authenticated `send_message`
whose trimmed content is empty and which carries no attachment produces
no effects whatsoever — in particular the sender receives no
user-visible `error` event, contrary to the claim (the code's
`if (content.length > 0 || attachment)` has no else branch). -/
theorem C9_counterexample :
    sendMessageStep (ClientData.mk 1 "alice" "#general" Role.User "online") "u1" 1 "m9" 1000
        false "" (some "") none none = ([], none) := by
  decide

/-- Claim C9 (amended): a `send_message` from an authenticated session
whose trimmed content is empty and which carries no attachment is
silently ignored: no effects are emitted (no error event, no close, no
persistence, no broadcast) and no message is built; the connection simply
remains open. -/
theorem C9_empty_message_silently_ignored (client : ClientData) (userId : String) (ws : Nat)
    (newId : String) (now : Int) (eventIsDm : Bool) (dmChannel : String)
    (rawContent parentRaw : Option String)
    (hempty : jsTrim (rawContent.getD "") = "") :
    sendMessageStep client userId ws newId now eventIsDm dmChannel rawContent none parentRaw =
      ([], none) := by
  simp only [sendMessageStep, hempty]
  rw [if_neg (by decide), if_neg (by decide)]

/-- Witness for C9 (amended): whitespace-only content trims to empty and
the handler emits nothing. -/
theorem C9_witness :
    jsTrim ((some "   ").getD "") = "" ∧
    sendMessageStep (ClientData.mk 2 "bob" "#random" Role.User "online") "u2" 2 "m10" 2000
        false "" (some "   ") none none = ([], none) :=
  ⟨by decide,
    C9_empty_message_silently_ignored (ClientData.mk 2 "bob" "#random" Role.User "online")
      "u2" 2 "m10" 2000 false "" (some "   ") none (by decide)⟩

/-- The `reactions` table: rows `(message_id, user_id, emoji)`; the
composite primary key makes the triple unique. -/
abbrev Reactions : Type := List (String × String × String)

/-- `INSERT IGNORE INTO reactions (message_id, user_id, emoji)`: with the
composite primary key, inserting an existing triple is a no-op. -/
def addReaction (rs : Reactions) (m u e : String) : Reactions :=
  if (m, u, e) ∈ rs then rs else rs ++ [(m, u, e)]

/-- `DELETE FROM reactions WHERE message_id = ? AND user_id = ? AND emoji = ?`. -/
def removeReaction (rs : Reactions) (m u e : String) : Reactions :=
  List.filter (fun t => !(t == (m, u, e))) rs

/-- One step of the JS reduce that aggregates reaction rows into
`{ emoji: [user_ids] }` (`acc[emoji] = acc[emoji] || []; push user_id`):
key order is first occurrence, user order is row order. -/
def aggPush (acc : List (String × List String)) (u e : String) :
    List (String × List String) :=
  if acc.any (fun p => p.1 == e) then
    acc.map (fun p => if p.1 == e then (p.1, p.2 ++ [u]) else p)
  else acc ++ [(e, [u])]

/-- `SELECT user_id, emoji FROM reactions WHERE message_id = ?` followed
by the aggregating reduce. -/
def aggregateReactions (rs : Reactions) (m : String) : List (String × List String) :=
  List.foldl (fun acc t => aggPush acc t.2.1 t.2.2) []
    (List.filter (fun t => t.1 == m) rs)

/-- The `add_reaction` / `remove_reaction` handler: apply the write, then
recompute the full aggregated reaction map for the message from the store
and broadcast it to the room and echo it to the sender. -/
def reactionStep (rs : Reactions) (isAdd : Bool) (msgId userId emoji : String)
    (room : String) (ws : Nat) : Reactions × List Effect :=
  let rs2 := if isAdd then addReaction rs msgId userId emoji
    else removeReaction rs msgId userId emoji
  (rs2, [Effect.reactBroadcast room msgId (aggregateReactions rs2 msgId),
    Effect.reactEcho ws msgId (aggregateReactions rs2 msgId)])

/-- Claim C6: reaction add and remove are idempotent on the reactions
store and hence on the recomputed aggregated reaction map, and each
handler run broadcasts (and echoes) exactly the aggregation of the
post-write store for the message. -/
theorem C6_reaction_idempotent (rs : Reactions) (m u e room : String) (ws : Nat) :
    ((reactionStep (reactionStep rs true m u e room ws).1 true m u e room ws).1 =
      (reactionStep rs true m u e room ws).1) ∧
    ((reactionStep (reactionStep rs false m u e room ws).1 false m u e room ws).1 =
      (reactionStep rs false m u e room ws).1) ∧
    (aggregateReactions
        (reactionStep (reactionStep rs true m u e room ws).1 true m u e room ws).1 m =
      aggregateReactions (reactionStep rs true m u e room ws).1 m) ∧
    (aggregateReactions
        (reactionStep (reactionStep rs false m u e room ws).1 false m u e room ws).1 m =
      aggregateReactions (reactionStep rs false m u e room ws).1 m) ∧
    (∀ isAdd : Bool,
      (reactionStep rs isAdd m u e room ws).2 =
        [Effect.reactBroadcast room m
            (aggregateReactions (reactionStep rs isAdd m u e room ws).1 m),
          Effect.reactEcho ws m
            (aggregateReactions (reactionStep rs isAdd m u e room ws).1 m)]) := by
  have hadd : addReaction (addReaction rs m u e) m u e = addReaction rs m u e := by
    by_cases h : (m, u, e) ∈ rs
    · simp [addReaction, h]
    · simp [addReaction, h]
  have hrem : removeReaction (removeReaction rs m u e) m u e = removeReaction rs m u e := by
    simp [removeReaction, List.filter_filter]
  refine ⟨?_, ?_, ?_, ?_, ?_⟩
  · simp [reactionStep, hadd]
  · simp [reactionStep, hrem]
  · simp [reactionStep, hadd]
  · simp [reactionStep, hrem]
  · intro isAdd
    cases isAdd <;> rfl

/-- The `channels` table restricted to the column the delete handler
touches: `channel_name` paired with the nullable `pinned_message_id`. -/
abbrev Channels : Type := List (String × Option String)

/-- The `delete_message` handler: find the message in the acting
session's room, check author-or-Moderator permission, delete the row,
clear the room's pinned reference only when it pointed at the deleted
message (`UPDATE channels SET pinned_message_id = NULL WHERE channel_name
= ? AND pinned_message_id = ?`), broadcast and echo the deletion, and
write the audit entry. -/
def deleteMessageStep (msgs : List MsgRecord) (chs : Channels) (client : ClientData)
    (userId : String) (ws : Nat) (msgId : String) :
    List MsgRecord × Channels × List Effect :=
  match findMessageInRoom msgs msgId client.channel with
  | none => (msgs, chs, [Effect.errorMsg ws "Permission denied to delete this message."])
  | some m =>
      if m.author_id = userId ∨ hasPermission client.role Role.Moderator = true then
        (List.filter (fun x => !(x.id == msgId)) msgs,
          List.map (fun c => if c.1 = client.channel ∧ c.2 = some msgId then (c.1, none) else c)
            chs,
          [Effect.broadcastDeleted client.channel msgId,
            Effect.echoDeleted ws client.channel msgId,
            Effect.auditInsert "MESSAGE_DELETE" userId msgId client.channel])
      else (msgs, chs, [Effect.errorMsg ws "Permission denied to delete this message."])

/-- Claim C7: a successful `delete_message` maps the channels table
entry-wise: the acting room’s entry loses its pinned reference exactly
when it pointed at the deleted message, and every other entry (same room
with a different pin, or any other room) is unchanged; the table keeps
its length. -/
theorem C7_delete_clears_pinned (msgs : List MsgRecord) (chs : Channels)
    (client : ClientData) (userId : String) (ws : Nat) (msgId : String) (m : MsgRecord)
    (hfind : findMessageInRoom msgs msgId client.channel = some m)
    (hperm : m.author_id = userId ∨ hasPermission client.role Role.Moderator = true) :
    (deleteMessageStep msgs chs client userId ws msgId).2.1.length = chs.length ∧
    ∀ i name pin, chs.get? i = some (name, pin) →
      ((name = client.channel ∧ pin = some msgId →
        (deleteMessageStep msgs chs client userId ws msgId).2.1.get? i = some (name, none)) ∧
      (name = client.channel ∧ pin ≠ some msgId →
        (deleteMessageStep msgs chs client userId ws msgId).2.1.get? i = some (name, pin)) ∧
      (name ≠ client.channel →
        (deleteMessageStep msgs chs client userId ws msgId).2.1.get? i = some (name, pin))) := by
  have heq : (deleteMessageStep msgs chs client userId ws msgId).2.1 =
      List.map (fun c => if c.1 = client.channel ∧ c.2 = some msgId then (c.1, none) else c)
        chs := by
    simp only [deleteMessageStep, hfind]
    rw [if_pos hperm]
  rw [heq]
  constructor
  · simp
  · intro i name pin hget
    rw [List.get?_map, hget]
    refine ⟨?_, ?_, ?_⟩
    · intro h
      simp [h]
    · intro h
      simp [h]
    · intro h
      simp [h]

/-- Witness for C7 at a concrete state: deleting pinned message `m1` in
`#general` as its author clears that room’s pin and leaves `#random`
untouched. -/
theorem C7_witness :
    findMessageInRoom [MsgRecord.mk "m1" "#general" "u1" "hello" 0] "m1" "#general" =
      some (MsgRecord.mk "m1" "#general" "u1" "hello" 0) ∧
    ((MsgRecord.mk "m1" "#general" "u1" "hello" 0).author_id = "u1" ∨
      hasPermission Role.User Role.Moderator = true) ∧
    ((deleteMessageStep [MsgRecord.mk "m1" "#general" "u1" "hello" 0]
          [("#general", some "m1"), ("#random", some "m2")]
          (ClientData.mk 1 "alice" "#general" Role.User "online") "u1" 1 "m1").2.1.length =
        ([("#general", some "m1"), ("#random", some "m2")] : Channels).length ∧
      ∀ i name pin,
        (([("#general", some "m1"), ("#random", some "m2")] : Channels)).get? i =
          some (name, pin) →
        ((name = "#general" ∧ pin = some "m1" →
          (deleteMessageStep [MsgRecord.mk "m1" "#general" "u1" "hello" 0]
            [("#general", some "m1"), ("#random", some "m2")]
            (ClientData.mk 1 "alice" "#general" Role.User "online") "u1" 1 "m1").2.1.get? i =
            some (name, none)) ∧
        (name = "#general" ∧ pin ≠ some "m1" →
          (deleteMessageStep [MsgRecord.mk "m1" "#general" "u1" "hello" 0]
            [("#general", some "m1"), ("#random", some "m2")]
            (ClientData.mk 1 "alice" "#general" Role.User "online") "u1" 1 "m1").2.1.get? i =
            some (name, pin)) ∧
        (name ≠ "#general" →
          (deleteMessageStep [MsgRecord.mk "m1" "#general" "u1" "hello" 0]
            [("#general", some "m1"), ("#random", some "m2")]
            (ClientData.mk 1 "alice" "#general" Role.User "online") "u1" 1 "m1").2.1.get? i =
            some (name, pin)))) :=
  ⟨by decide, by decide,
    C7_delete_clears_pinned [MsgRecord.mk "m1" "#general" "u1" "hello" 0]
      [("#general", some "m1"), ("#random", some "m2")]
      (ClientData.mk 1 "alice" "#general" Role.User "online") "u1" 1 "m1"
      (MsgRecord.mk "m1" "#general" "u1" "hello" 0) (by decide) (by decide)⟩

/-- Server state touched by the moderation commands: the `clients` Map,
the in-memory `bannedUsers` Set (modelled as a duplicate-free list), and
the `users` table. -/
structure ServerState where
  clients : Registry
  bannedUsers : List String
  users : List UserRec
deriving DecidableEq, Repr

/-- The `clients.forEach` scan for the target username: the JS loop keeps
overwriting its result variables, so the last matching entry in insertion
order wins. -/
def findLastByUsername (r : Registry) (name : String) : Option (String × ClientData) :=
  List.getLast? (List.filter (fun p => p.2.username == name) r)

/-- The `/ban`-specific updates, applied before the connected-target
processing: add the name to the in-memory ban set, persist the ban flag
and reason (`UPDATE users SET is_banned = TRUE, ban_reason = ? WHERE
username = ?`; the reason is `restArgs.slice(1)` joined, falling back to
a default), and notify the acting client. -/
def banApply (st : ServerState) (cmd : String) (args : List String)
    (targetUsername : String) (ws : Nat) : ServerState × List Effect :=
  if cmd = "/ban" then
    let reasonJoined := String.intercalate " " (args.drop 2)
    let reason := if reasonJoined = "" then "Banned by Admin command." else reasonJoined
    ({ st with
        bannedUsers := if targetUsername ∈ st.bannedUsers then st.bannedUsers
          else st.bannedUsers ++ [targetUsername],
        users := List.map (fun u => if u.username = targetUsername then
          { u with is_banned := true, ban_reason := some reason } else u) st.users },
      [Effect.dbBanUpdate targetUsername reason,
        Effect.notice ws ("User " ++ targetUsername ++ " is now permanently banned.")])
  else (st, [])

/-- The `/kick` and `/ban` command handler.  `auditOk` models whether the
`INSERT INTO audit_logs` write succeeds: the insert is awaited before the
target's disconnect, and on failure the raised error aborts the handler
(the outer catch sends a generic error event), so the close, the session
removal and the presence recomputation do not run. -/
def kickBanStep (cmd : String) (args : List String) (client : ClientData)
    (userId : String) (ws : Nat) (st : ServerState) (auditOk : Bool) :
    ServerState × List Effect :=
  let roomName := client.channel
  let targetUsername := args.headD ""
  if hasPermission client.role Role.Admin = false ∨ targetUsername = "" then
    (st, [Effect.errorMsg ws
      ("Permission denied or missing username. Usage: " ++ cmd ++ " [username]")])
  else
    match findLastByUsername st.clients targetUsername with
    | some (targetId, tc) =>
        if tc.role = Role.Admin then
          (st, [Effect.errorMsg ws "Cannot moderate another Admin."])
        else
          let ban := banApply st cmd args targetUsername ws
          let action := if cmd = "/ban" then "banned" else "kicked"
          let word := if cmd = "/ban" then "permanently banned" else "kicked"
          let notifyEffs :=
            [Effect.broadcastSystem roomName
                (targetUsername ++ " has been " ++ word ++ " by " ++ client.username ++ "."),
              Effect.sendEvent tc.wsId action ("You were " ++ action ++ " from the server.")]
          if auditOk then
            ({ ban.1 with clients := Registry.del ban.1.clients targetId },
              ban.2 ++ notifyEffs ++
                [Effect.auditInsert ("USER_" ++ (if cmd = "/ban" then "BAN" else "KICK"))
                    userId targetId roomName,
                  Effect.closeConn tc.wsId, Effect.removeSession targetId,
                  Effect.presenceUpdate roomName])
          else
            (ban.1, ban.2 ++ notifyEffs ++
              [Effect.errorMsg ws "Internal error processing request."])
    | none =>
        let ban := banApply st cmd args targetUsername ws
        if cmd = "/kick" then
          (ban.1, ban.2 ++ [Effect.errorMsg ws
            ("User " ++ targetUsername ++ " not found or already disconnected.")])
        else (ban.1, ban.2)

/-- Counterexample to claim C3 as stated: the Admin-target guard reads
the role off the *connected* session (`targetClient?.role`), so `/ban`
against an identity whose persisted role is Admin but who is currently
offline is not rejected: the name is inserted into the ban set and the
persisted ban flag is set. -/
theorem C3_counterexample :
    ((kickBanStep "/ban" ["bob"] (ClientData.mk 1 "alice" "#general" Role.Admin "online")
        "a1" 1
        (ServerState.mk [("a1", ClientData.mk 1 "alice" "#general" Role.Admin "online")] []
          [UserRec.mk "b1" "bob" Role.Admin "online" "#general" false none]) true).1.bannedUsers =
      ["bob"]) ∧
    ((kickBanStep "/ban" ["bob"] (ClientData.mk 1 "alice" "#general" Role.Admin "online")
        "a1" 1
        (ServerState.mk [("a1", ClientData.mk 1 "alice" "#general" Role.Admin "online")] []
          [UserRec.mk "b1" "bob" Role.Admin "online" "#general" false none]) true).1.users =
      [UserRec.mk "b1" "bob" Role.Admin "online" "#general" true
        (some "Banned by Admin command.")]) ∧
    (UserRec.mk "b1" "bob" Role.Admin "online" "#general" false none).user_role = Role.Admin := by
  decide

/-- Claim C3 (amended): when the named target currently has a connected
session and that session's role is Admin, the `/kick` or `/ban` command
is rejected with a single user-visible error event and the server state
is completely unchanged (no session removal, no ban-set insertion, no
ban flag), regardless of the actor's own role.  (When the target has no
connected session the Admin guard is skipped: `/kick` reports not-found
and `/ban` proceeds against the persisted record.) -/
theorem C3_connected_admin_target_rejected (cmd : String) (args : List String)
    (client : ClientData) (userId : String) (ws : Nat) (st : ServerState) (auditOk : Bool)
    (targetId : String) (tc : ClientData)
    (_hcmd : cmd = "/kick" ∨ cmd = "/ban")
    (htgt : findLastByUsername st.clients (args.headD "") = some (targetId, tc))
    (hrole : tc.role = Role.Admin) :
    (kickBanStep cmd args client userId ws st auditOk).1 = st ∧
    ∃ msg, (kickBanStep cmd args client userId ws st auditOk).2 = [Effect.errorMsg ws msg] := by
  simp only [kickBanStep]
  by_cases hperm : hasPermission client.role Role.Admin = false ∨ args.headD "" = ""
  · rw [if_pos hperm]
    exact ⟨rfl, ⟨_, rfl⟩⟩
  · rw [if_neg hperm]
    simp only [htgt]
    rw [if_pos hrole]
    exact ⟨rfl, ⟨_, rfl⟩⟩

/-- Witness for C3 (amended): `/kick bob` where `bob` is connected with an
Admin session is rejected and the state is untouched. -/
theorem C3_witness :
    (("/kick" : String) = "/kick" ∨ ("/kick" : String) = "/ban") ∧
    findLastByUsername
        [("a1", ClientData.mk 1 "alice" "#general" Role.Admin "online"),
          ("b1", ClientData.mk 2 "bob" "#general" Role.Admin "online")]
        ((["bob"] : List String).headD "") =
      some ("b1", ClientData.mk 2 "bob" "#general" Role.Admin "online") ∧
    (ClientData.mk 2 "bob" "#general" Role.Admin "online").role = Role.Admin ∧
    ((kickBanStep "/kick" ["bob"] (ClientData.mk 1 "alice" "#general" Role.Admin "online")
        "a1" 1
        (ServerState.mk
          [("a1", ClientData.mk 1 "alice" "#general" Role.Admin "online"),
            ("b1", ClientData.mk 2 "bob" "#general" Role.Admin "online")] [] []) true).1 =
      ServerState.mk
        [("a1", ClientData.mk 1 "alice" "#general" Role.Admin "online"),
          ("b1", ClientData.mk 2 "bob" "#general" Role.Admin "online")] [] [] ∧
      ∃ msg, (kickBanStep "/kick" ["bob"]
          (ClientData.mk 1 "alice" "#general" Role.Admin "online") "a1" 1
          (ServerState.mk
            [("a1", ClientData.mk 1 "alice" "#general" Role.Admin "online"),
              ("b1", ClientData.mk 2 "bob" "#general" Role.Admin "online")] [] []) true).2 =
        [Effect.errorMsg 1 msg]) :=
  ⟨Or.inl rfl, by decide, by decide,
    C3_connected_admin_target_rejected "/kick" ["bob"]
      (ClientData.mk 1 "alice" "#general" Role.Admin "online") "a1" 1
      (ServerState.mk
        [("a1", ClientData.mk 1 "alice" "#general" Role.Admin "online"),
          ("b1", ClientData.mk 2 "bob" "#general" Role.Admin "online")] [] []) true
      "b1" (ClientData.mk 2 "bob" "#general" Role.Admin "online")
      (Or.inl rfl) (by decide) (by decide)⟩

/-- Claim C4 (code evidence): at a state with a connected non-Admin
target, `/kick` with a failing audit insert leaves the target's session
registered and emits neither the close, nor the removal, nor the
presence update — the generic internal error is sent instead; with a
succeeding audit insert the audit entry (kind, actor, target, room) is
recorded and the session is removed.  The audit failure therefore blocks
the moderation action, contradicting the claim. -/
theorem C4_audit_failure_blocks_moderation :
    (Registry.getk (kickBanStep "/kick" ["bob"]
        (ClientData.mk 1 "alice" "#general" Role.Admin "online") "a1" 1
        (ServerState.mk
          [("a1", ClientData.mk 1 "alice" "#general" Role.Admin "online"),
            ("b1", ClientData.mk 2 "bob" "#general" Role.User "online")] [] [])
        false).1.clients "b1" =
      some (ClientData.mk 2 "bob" "#general" Role.User "online")) ∧
    Effect.closeConn 2 ∉ (kickBanStep "/kick" ["bob"]
        (ClientData.mk 1 "alice" "#general" Role.Admin "online") "a1" 1
        (ServerState.mk
          [("a1", ClientData.mk 1 "alice" "#general" Role.Admin "online"),
            ("b1", ClientData.mk 2 "bob" "#general" Role.User "online")] [] []) false).2 ∧
    Effect.removeSession "b1" ∉ (kickBanStep "/kick" ["bob"]
        (ClientData.mk 1 "alice" "#general" Role.Admin "online") "a1" 1
        (ServerState.mk
          [("a1", ClientData.mk 1 "alice" "#general" Role.Admin "online"),
            ("b1", ClientData.mk 2 "bob" "#general" Role.User "online")] [] []) false).2 ∧
    Effect.presenceUpdate "#general" ∉ (kickBanStep "/kick" ["bob"]
        (ClientData.mk 1 "alice" "#general" Role.Admin "online") "a1" 1
        (ServerState.mk
          [("a1", ClientData.mk 1 "alice" "#general" Role.Admin "online"),
            ("b1", ClientData.mk 2 "bob" "#general" Role.User "online")] [] []) false).2 ∧
    Effect.errorMsg 1 "Internal error processing request." ∈ (kickBanStep "/kick" ["bob"]
        (ClientData.mk 1 "alice" "#general" Role.Admin "online") "a1" 1
        (ServerState.mk
          [("a1", ClientData.mk 1 "alice" "#general" Role.Admin "online"),
            ("b1", ClientData.mk 2 "bob" "#general" Role.User "online")] [] []) false).2 ∧
    Effect.auditInsert "USER_KICK" "a1" "b1" "#general" ∈ (kickBanStep "/kick" ["bob"]
        (ClientData.mk 1 "alice" "#general" Role.Admin "online") "a1" 1
        (ServerState.mk
          [("a1", ClientData.mk 1 "alice" "#general" Role.Admin "online"),
            ("b1", ClientData.mk 2 "bob" "#general" Role.User "online")] [] []) true).2 ∧
    Registry.getk (kickBanStep "/kick" ["bob"]
        (ClientData.mk 1 "alice" "#general" Role.Admin "online") "a1" 1
        (ServerState.mk
          [("a1", ClientData.mk 1 "alice" "#general" Role.Admin "online"),
            ("b1", ClientData.mk 2 "bob" "#general" Role.User "online")] [] [])
        true).1.clients "b1" =
      none := by
  decide

end LanChat
